import Mathlib

/-
Verification of ccputemp (src/ccputemp.c) against its natural-language
specification.

Modelling conventions:
* C `float` values are embedded as exact rationals (ℚ).  Every concrete
  input used below makes the modelled float operations exact in IEEE
  binary32 as well (small integers, halves, and comparisons), so the
  discrepancies proved here are not rounding artefacts.
* The filesystem is a function `String → Option String` giving the
  contents readable from a path (`none` = fopen fails), and a
  `String → Bool` existence predicate for `stat`.
* The sampled thermal file changes over time, so the sampling loops take
  a time-indexed filesystem `fsAt : Nat → String → Option String`;
  tick `i` reads from `fsAt i`.
* Potentially unbounded loops take a fuel argument; claims are stated
  with enough fuel, and `outOfFuel` never occurs in any proved run.
* An out-of-bounds array read (undefined behaviour in C) is modelled as
  an explicit `Except.error` carrying the offending index.
-/

namespace Ccputemp

/-- enum temp_unit_t { CELSIUS, FAHRENHEIT, KELVIN } -/
inductive temp_unit_t where
  | CELSIUS
  | FAHRENHEIT
  | KELVIN
deriving DecidableEq, Repr

/-- static const int g_default_runtime_secs = 5 -/
def g_default_runtime_secs : Int := 5

/-- FLT_MAX, the largest finite binary32 value, (2 - 2^-23) * 2^127 =
(2^24 - 1) * 2^104, as an exact rational (written as a literal so that
kernel evaluation is direct). -/
def FLT_MAX : ℚ := 340282346638528859811704183484516925440

/-- FLT_MIN, the smallest positive normalized binary32 value, 2^-126, as
an exact rational (the denominator literal is 2^126).  Note: FLT_MIN is
a tiny POSITIVE number, not the most negative float. -/
def FLT_MIN : ℚ := 1 / 85070591730234615865843651857942052864

/-- The C macro min(a,b): a < b ? a : b. -/
def c_min (a b : ℚ) : ℚ := if a < b then a else b

/-- The C macro max(a,b): a > b ? a : b. -/
def c_max (a b : ℚ) : ℚ := if a > b then a else b

/-- ccputemp_convert_unit_from_celsius:
(unit == CELSIUS) ? val : (unit == FAHRENHEIT) ? 1.8f * val + 32.0f
: val + 273.15f.  Float literals are modelled as exact rationals. -/
def ccputemp_convert_unit_from_celsius (val : ℚ) (unit : temp_unit_t) : ℚ :=
  if unit = temp_unit_t.CELSIUS then val
  else if unit = temp_unit_t.FAHRENHEIT then 1.8 * val + 32
  else val + 273.15

/-- g_thermal_path_list: the five candidate thermal-zone paths, in
declaration order. -/
def g_thermal_path_list : List String :=
  [ "/sys/devices/LNXSYSTM:00/LNXTHERM:00/LNXTHERM:01/thermal_zone/temp",
    "/sys/bus/acpi/devices/LNXTHERM:00/thermal_zone/temp",
    "/proc/acpi/thermal_zone/THM0/temperature",
    "/proc/acpi/thermal_zone/THRM/temperature",
    "/proc/acpi/thermal_zone/THR1/temperature" ]

/-- sizeof(const char *) on the LP64 Linux targets this program is built
for: 8 bytes. -/
def sizeof_const_char_ptr : Nat := 8

/-- g_thermal_path_list_len = sizeof(g_thermal_path_list): the BYTE size
of the array (element count times pointer size), not the element count. -/
def g_thermal_path_list_len : Nat :=
  g_thermal_path_list.length * sizeof_const_char_ptr

/-- One iteration family of the loop in ccputemp_get_thermal_path:
for(i=0; i<g_thermal_path_list_len; i++) if(stat(list[i],..)==0) return
list[i].  `fuel` is the number of remaining iterations (len - i).  An
access at an index with no array element is an out-of-bounds read,
modelled as `Except.error i`. -/
def ccputemp_get_thermal_path_go (ex : String → Bool) : Nat → Nat → Except Nat (Option String)
  | _, 0 => Except.ok none
  | i, fuel + 1 =>
    match g_thermal_path_list.get? i with
    | none => Except.error i
    | some p =>
      if ex p then Except.ok (some p)
      else ccputemp_get_thermal_path_go ex (i + 1) fuel

/-- ccputemp_get_thermal_path: probe the candidate list in order, bound
g_thermal_path_list_len; `ex` is the stat-based existence check.
`Except.ok none` models returning NULL, `Except.error i` an
out-of-bounds read at index `i`. -/
def ccputemp_get_thermal_path (ex : String → Bool) : Except Nat (Option String) :=
  ccputemp_get_thermal_path_go ex 0 g_thermal_path_list_len

/-- C isspace on the default locale: space, \t, \n, \v, \f, \r. -/
def c_isspace (c : Char) : Bool :=
  c = ' ' || c = '\t' || c = '\n' || c = Char.ofNat 11 || c = Char.ofNat 12 || c = '\r'

/-- Accumulate the value of a leading digit run, as atoi does. -/
def atoi_digits : List Char → Nat → Nat
  | [], acc => acc
  | c :: cs, acc =>
    if c.isDigit then atoi_digits cs (acc * 10 + (c.toNat - 48)) else acc

/-- atoi: skip leading whitespace, optional sign, then a digit run; a
string with no leading digits yields 0, never an error.  (Overflow is
not modelled; every input considered fits in int.) -/
def atoi_model (s : List Char) : Int :=
  let s1 := s.dropWhile (fun c => c_isspace c)
  match s1 with
  | '-' :: rest => -(atoi_digits rest 0 : Int)
  | '+' :: rest => (atoi_digits rest 0 : Int)
  | _ => (atoi_digits s1 0 : Int)

/-- fgets body: copy at most `n` characters, stopping after the first
newline (which is kept). -/
def fgets_take : Nat → List Char → List Char
  | 0, _ => []
  | _ + 1, [] => []
  | n + 1, c :: cs => if c = '\n' then ['\n'] else c :: fgets_take n cs

/-- fgets(buf, bufLen, f): NULL exactly when the stream is at EOF with
nothing read (empty contents); otherwise at most bufLen-1 characters up
to and including the first newline. -/
def fgets_model (content : String) (bufLen : Nat) : Option (List Char) :=
  if content = "" then none else some (fgets_take (bufLen - 1) content.toList)

/-- ccputemp_get_thermal_value_from_file: fopen (none = failure), fgets
into a 32-byte buffer (NULL = failure), then
*val = (float)(atoi(tmp_buf) / 1000) — note the INTEGER division by 1000
happens before the cast to float.  `none` models the -1 return. -/
def ccputemp_get_thermal_value_from_file (fs : String → Option String) (src_file : String) : Option ℚ :=
  match fs src_file with
  | none => none
  | some content =>
    match fgets_model content 32 with
    | none => none
    | some buf => some ((Int.tdiv (atoi_model buf) 1000 : Int) : ℚ)

/-- ccputemp_get_unit_temp_from_file: read the raw value, then apply the
unit conversion. -/
def ccputemp_get_unit_temp_from_file (fs : String → Option String) (src_file : String) (unit : temp_unit_t) : Option ℚ :=
  match ccputemp_get_thermal_value_from_file fs src_file with
  | none => none
  | some v => some (ccputemp_convert_unit_from_celsius v unit)

/-- The running statistics of ccputemp_do_normal: temp_sum, temp_min,
temp_max (cur_val is threaded separately). -/
structure Stats where
  temp_sum : ℚ
  temp_min : ℚ
  temp_max : ℚ
deriving DecidableEq, Repr

/-- The initializers of ccputemp_do_normal:
temp_sum = 0.0f, temp_min = FLT_MAX, temp_max = FLT_MIN. -/
def stats_init : Stats := ⟨0, FLT_MAX, FLT_MIN⟩

/-- The per-sample statistics update of ccputemp_do_normal:
temp_sum += cur_val; temp_min = min(temp_min, cur_val);
temp_max = max(temp_max, cur_val). -/
def stats_update (s : Stats) (v : ℚ) : Stats :=
  ⟨s.temp_sum + v, c_min s.temp_min v, c_max s.temp_max v⟩

/-- Outcome of the while loop of ccputemp_do_normal: `readError i s`
models the `return -1` after a failed read at tick `i`; `finished i s`
models leaving the loop (signal flag observed, or bounded-mode break)
with tick counter `i` and statistics `s`. -/
inductive LoopOutcome where
  | readError (i : Nat) (s : Stats)
  | finished (i : Nat) (s : Stats)
  | outOfFuel
deriving DecidableEq, Repr

/-- The while loop of ccputemp_do_normal.  `flag i` is the value of
g_ctrl_c_signal observed at the loop head of tick `i`; `fsAt i` is the
filesystem contents during tick `i`; `os` is opt_seconds.  Loop body:
check flag, check the bounded-mode break `i >= seconds`, read+convert a
sample (failure aborts), update statistics, increment `i`, sleep. -/
def ccputemp_normal_loop (fsAt : Nat → String → Option String) (src : String) (unit : temp_unit_t)
    (flag : Nat → Bool) (os : Bool) (secs : Int) : Nat → Nat → Stats → LoopOutcome
  | 0, _, _ => LoopOutcome.outOfFuel
  | fuel + 1, i, s =>
    if flag i then LoopOutcome.finished i s
    else if os ∧ (i : Int) ≥ secs then LoopOutcome.finished i s
    else
      match ccputemp_get_unit_temp_from_file (fsAt i) src unit with
      | none => LoopOutcome.readError i s
      | some v => ccputemp_normal_loop fsAt src unit flag os secs fuel (i + 1) (stats_update s v)

/-- The seconds adjustment of ccputemp_do_normal:
if(opt_seconds && seconds < 1) seconds = g_default_runtime_secs. -/
def clamp_normal_seconds (os : Bool) (seconds : Int) : Int :=
  if os ∧ seconds < 1 then g_default_runtime_secs else seconds

/-- The observable result of a ccputemp_do_normal run after the source
path was found and the unit fixed: the return value, the final summary
block printed to stdout as (Highest, Lowest, Average) when printed, and
whether ccputemp_do_log was invoked. -/
structure NormalResult where
  retval : Int
  summary : Option (ℚ × ℚ × ℚ)
  loggerInvoked : Bool
deriving DecidableEq, Repr

/-- ccputemp_do_normal from the point where the source path exists and
the unit is fixed (the opt_unit = 0 interactive prompt is not modelled):
clamp seconds, run the loop; on read error return -1 with no summary and
no log; otherwise if i > 0 print Highest = temp_max, Lowest = temp_min,
Average = temp_sum / (i + 1) — note the denominator uses i + 1 although
exactly i samples were collected — and invoke the logger; if i = 0 print
an error message, no summary, return 0. -/
def ccputemp_do_normal (fsAt : Nat → String → Option String) (src : String) (unit : temp_unit_t)
    (flag : Nat → Bool) (os : Bool) (seconds : Int) (fuel : Nat) : Option NormalResult :=
  match ccputemp_normal_loop fsAt src unit flag os (clamp_normal_seconds os seconds) fuel 0 stats_init with
  | LoopOutcome.outOfFuel => none
  | LoopOutcome.readError _ _ => some ⟨-1, none, false⟩
  | LoopOutcome.finished i s =>
    if i > 0 then
      some ⟨0, some (s.temp_max, s.temp_min, s.temp_sum / ((i : ℚ) + 1)), true⟩
    else some ⟨0, none, false⟩

/-- The for loop of ccputemp_do_avg, run for `n` ticks: `none` models
the `return -1` after a failed read; otherwise the pair of the number of
samples collected and temp_sum.  No signal flag: ccputemp_do_avg
installs no handler and checks none. -/
def ccputemp_avg_loop (fsAt : Nat → String → Option String) (src : String) (unit : temp_unit_t) : Nat → Option (Nat × ℚ)
  | 0 => some (0, 0)
  | n + 1 =>
    match ccputemp_avg_loop fsAt src unit n with
    | none => none
    | some (c, s) =>
      match ccputemp_get_unit_temp_from_file (fsAt n) src unit with
      | none => none
      | some v => some (c + 1, s + v)

/-- The seconds adjustment of ccputemp_do_avg:
if(seconds < 1) seconds = g_default_runtime_secs. -/
def clamp_avg_seconds (seconds : Int) : Int :=
  if seconds < 1 then g_default_runtime_secs else seconds

/-- ccputemp_do_avg from the point where the source path exists: clamp
seconds, run the for loop for that many ticks; on read error return -1
(`none`); otherwise print temp_sum / (float)(seconds) as the average. -/
def ccputemp_do_avg (fsAt : Nat → String → Option String) (src : String) (unit : temp_unit_t)
    (seconds : Int) : Option ℚ :=
  match ccputemp_avg_loop fsAt src unit (clamp_avg_seconds seconds).toNat with
  | none => none
  | some (_, sum) => some (sum / ((clamp_avg_seconds seconds : Int) : ℚ))

/-- Observable outcome of ccputemp_do_log. -/
inductive LogOutcome where
  | earlyReturn
  | statDiagnostic
  | nullHandleWrite
  | logged
deriving DecidableEq, Repr

/-- ccputemp_do_log control flow: NULL filename returns immediately;
stat failure prints a diagnostic and returns (no fopen, so the file is
never created); fopen("a") failure prints a diagnostic but does NOT
return — execution falls through to fprintf(file_handle, ...) with a
NULL handle (`nullHandleWrite`, undefined behaviour); otherwise the
block is appended and fclose/printf run (`logged`). -/
def ccputemp_do_log (filename_nonnull stat_ok open_ok : Bool) : LogOutcome :=
  if filename_nonnull = false then LogOutcome.earlyReturn
  else if stat_ok = false then LogOutcome.statDiagnostic
  else if open_ok = false then LogOutcome.nullHandleWrite
  else LogOutcome.logged

/-- C10: the unit converter is a pure total function with
convert(c, Celsius) = c, convert(c, Fahrenheit) = 1.8*c + 32 and
convert(c, Kelvin) = c + 273.15, in particular convert(0, Fahrenheit)
= 32 and convert(0, Kelvin) = 273.15. -/
theorem C10_convert_unit_correct (c : ℚ) :
    ccputemp_convert_unit_from_celsius c temp_unit_t.CELSIUS = c ∧
    ccputemp_convert_unit_from_celsius c temp_unit_t.FAHRENHEIT = 18 / 10 * c + 32 ∧
    ccputemp_convert_unit_from_celsius c temp_unit_t.KELVIN = c + 27315 / 100 ∧
    ccputemp_convert_unit_from_celsius 0 temp_unit_t.FAHRENHEIT = 32 ∧
    ccputemp_convert_unit_from_celsius 0 temp_unit_t.KELVIN = 27315 / 100 := by
  have h18 : (1.8 : ℚ) = 18 / 10 := by norm_num
  have h273 : (273.15 : ℚ) = 27315 / 100 := by norm_num
  refine ⟨rfl, ?_, ?_, ?_, ?_⟩
  · show (1.8 : ℚ) * c + 32 = 18 / 10 * c + 32
    rw [h18]
  · show c + (273.15 : ℚ) = c + 27315 / 100
    rw [h273]
  · show (1.8 : ℚ) * 0 + 32 = 32
    norm_num
  · show (0 : ℚ) + 273.15 = 27315 / 100
    rw [h273]
    norm_num

/-- C2: the locator does return the first existing candidate when one
exists (here the third), but on a filesystem where none of the five
candidates exists it does NOT return NULL: the loop bound is the byte
size 40, so iteration 5 reads past the end of the array (undefined
behaviour), refuting the none-of-them-exist half of the claim. -/
theorem C2_locator_oob_instead_of_null :
    ccputemp_get_thermal_path (fun p => p == "/proc/acpi/thermal_zone/THM0/temperature") =
      Except.ok (some "/proc/acpi/thermal_zone/THM0/temperature") ∧
    ccputemp_get_thermal_path (fun _ => false) = Except.error 5 ∧
    Except.error 5 ≠ (Except.ok none : Except Nat (Option String)) := by
  refine ⟨rfl, rfl, by simp⟩

/-- C3: the loop bound g_thermal_path_list_len is sizeof of the array —
40 bytes — not the element count 5, so on a filesystem with no existing
candidate the loop dereferences index 5, which is not below the element
count: the claimed in-bounds property fails. -/
theorem C3_loop_bound_is_sizeof_not_count :
    g_thermal_path_list_len = 40 ∧
    g_thermal_path_list.length = 5 ∧
    ccputemp_get_thermal_path (fun _ => false) = Except.error 5 ∧
    ¬ 5 < g_thermal_path_list.length := by
  refine ⟨rfl, rfl, rfl, by decide⟩

/-- C4 counterexample: a source file whose first line is "abc" cannot be
parsed as an integer, yet the reader SUCCEEDS with value 0 (atoi returns
0 on unparseable input and the function returns 0), refuting the claim
that unparseable contents produce an error. -/
theorem C4_counterexample_unparseable_succeeds :
    ccputemp_get_thermal_value_from_file (fun _ => some "abc") "/proc/acpi/thermal_zone/THM0/temperature" = some 0 := by
  rfl

/-- C4 amended: the reader returns an error exactly when the path cannot
be opened or the contents are empty (fgets returns NULL); unparseable
contents are not an error — atoi yields 0 and the reader returns
success. -/
theorem C4_reader_error_iff_open_or_read_fails (fs : String → Option String) (src : String) :
    ccputemp_get_thermal_value_from_file fs src = none ↔ fs src = none ∨ fs src = some "" := by
  unfold ccputemp_get_thermal_value_from_file fgets_model
  cases h : fs src with
  | none => simp
  | some content =>
    by_cases hc : content = "" <;> simp [hc]

/-- C5: a source file whose first line begins with the integer 45500
millidegrees yields 45, not 45.5: the division by 1000 is an INTEGER
division performed before the cast to float, truncating the fractional
part. -/
theorem C5_integer_division_truncates :
    ccputemp_get_thermal_value_from_file (fun _ => some "45500\n") "/proc/acpi/thermal_zone/THM0/temperature" = some 45 ∧
    (45 : ℚ) ≠ 45500 / 1000 := by
  refine ⟨rfl, by norm_num⟩

/-- C8: when the log file does not exist (stat fails) the logger prints
a diagnostic and returns without creating it, whatever fopen would do;
but when the file exists and fopen for append fails, the logger does NOT
return after its diagnostic — it falls through and writes through a NULL
file handle (undefined behaviour), refuting the cannot-be-opened half of
the claim. -/
theorem C8_logger_null_handle_write :
    (∀ b : Bool, ccputemp_do_log true false b = LogOutcome.statDiagnostic) ∧
    ccputemp_do_log true true false = LogOutcome.nullHandleWrite ∧
    LogOutcome.nullHandleWrite ≠ LogOutcome.statDiagnostic := by
  refine ⟨by decide, rfl, by decide⟩

/-- Helper: one successful iteration of the normal-mode loop. -/
theorem normal_loop_step (fsAt : Nat → String → Option String) (src : String) (unit : temp_unit_t)
    (flag : Nat → Bool) (os : Bool) (secs : Int) (fuel i : Nat) (s : Stats) (v : ℚ)
    (hflag : flag i = false)
    (hb : ¬(os = true ∧ (i : Int) ≥ secs))
    (hread : ccputemp_get_unit_temp_from_file (fsAt i) src unit = some v) :
    ccputemp_normal_loop fsAt src unit flag os secs (fuel + 1) i s =
      ccputemp_normal_loop fsAt src unit flag os secs fuel (i + 1) (stats_update s v) := by
  show (if flag i then LoopOutcome.finished i s
    else if os ∧ (i : Int) ≥ secs then LoopOutcome.finished i s
    else
      match ccputemp_get_unit_temp_from_file (fsAt i) src unit with
      | none => LoopOutcome.readError i s
      | some v =>
        ccputemp_normal_loop fsAt src unit flag os secs fuel (i + 1) (stats_update s v)) = _
  rw [if_neg (by simp [hflag]), if_neg hb, hread]

/-- Helper: the normal-mode loop fails at a tick whose read fails. -/
theorem normal_loop_fail (fsAt : Nat → String → Option String) (src : String) (unit : temp_unit_t)
    (flag : Nat → Bool) (os : Bool) (secs : Int) (fuel i : Nat) (s : Stats)
    (hflag : flag i = false)
    (hb : ¬(os = true ∧ (i : Int) ≥ secs))
    (hread : ccputemp_get_unit_temp_from_file (fsAt i) src unit = none) :
    ccputemp_normal_loop fsAt src unit flag os secs (fuel + 1) i s =
      LoopOutcome.readError i s := by
  show (if flag i then LoopOutcome.finished i s
    else if os ∧ (i : Int) ≥ secs then LoopOutcome.finished i s
    else
      match ccputemp_get_unit_temp_from_file (fsAt i) src unit with
      | none => LoopOutcome.readError i s
      | some v =>
        ccputemp_normal_loop fsAt src unit flag os secs fuel (i + 1) (stats_update s v)) = _
  rw [if_neg (by simp [hflag]), if_neg hb, hread]

/-- Helper: the normal-mode loop stops at the bounded-mode break. -/
theorem normal_loop_stop (fsAt : Nat → String → Option String) (src : String) (unit : temp_unit_t)
    (flag : Nat → Bool) (os : Bool) (secs : Int) (fuel i : Nat) (s : Stats)
    (hflag : flag i = false)
    (hb : os = true ∧ (i : Int) ≥ secs) :
    ccputemp_normal_loop fsAt src unit flag os secs (fuel + 1) i s =
      LoopOutcome.finished i s := by
  show (if flag i then LoopOutcome.finished i s
    else if os ∧ (i : Int) ≥ secs then LoopOutcome.finished i s
    else
      match ccputemp_get_unit_temp_from_file (fsAt i) src unit with
      | none => LoopOutcome.readError i s
      | some v =>
        ccputemp_normal_loop fsAt src unit flag os secs fuel (i + 1) (stats_update s v)) = _
  rw [if_neg (by simp [hflag]), if_pos hb]

/-- Helper: a read failure at tick k, after successful ticks 0..k-1 and
with nothing stopping the loop up to k, drives the loop to readError. -/
theorem normal_loop_error_of_fail (fsAt : Nat → String → Option String) (src : String)
    (unit : temp_unit_t) (flag : Nat → Bool) (os : Bool) (secs : Int) (k : Nat)
    (hbound : os = true → (k : Int) < secs)
    (hflag : ∀ j, j ≤ k → flag j = false)
    (hfail : ccputemp_get_unit_temp_from_file (fsAt k) src unit = none) :
    ∀ fuel i s, i ≤ k → k - i < fuel →
      (∀ j, i ≤ j → j < k → ∃ v, ccputemp_get_unit_temp_from_file (fsAt j) src unit = some v) →
      ∃ st : Stats, ccputemp_normal_loop fsAt src unit flag os secs fuel i s =
        LoopOutcome.readError k st := by
  intro fuel
  induction fuel with
  | zero => intro i s hik hf _; omega
  | succ fuel ih =>
    intro i s hik hf hreads
    have hfl : flag i = false := hflag i hik
    have hb : ¬(os = true ∧ (i : Int) ≥ secs) := by
      rintro ⟨ho, hge⟩
      have := hbound ho
      omega
    rcases Nat.lt_or_ge i k with hik2 | hik2
    · obtain ⟨v, hv⟩ := hreads i le_rfl hik2
      rw [normal_loop_step fsAt src unit flag os secs fuel i s v hfl hb hv]
      exact ih (i + 1) (stats_update s v) (by omega) (by omega)
        (fun j hj1 hj2 => hreads j (by omega) hj2)
    · have hik3 : i = k := by omega
      subst hik3
      rw [normal_loop_fail fsAt src unit flag os secs fuel i s hfl hb hfail]
      exact ⟨s, rfl⟩

/-- Helper: with no interruption, all reads succeeding and a bound of D
ticks, the loop exits at the bounded-mode break with tick counter D. -/
theorem normal_loop_finishes_at_bound (fsAt : Nat → String → Option String) (src : String)
    (unit : temp_unit_t) (flag : Nat → Bool) (secs : Int) (D : Nat)
    (hflag : ∀ j, flag j = false)
    (hD : secs = (D : Int))
    (hreads : ∀ j, j < D → ∃ v, ccputemp_get_unit_temp_from_file (fsAt j) src unit = some v) :
    ∀ fuel i s, i ≤ D → D - i < fuel →
      ∃ st : Stats, ccputemp_normal_loop fsAt src unit flag true secs fuel i s =
        LoopOutcome.finished D st := by
  intro fuel
  induction fuel with
  | zero => intro i s hik hf; omega
  | succ fuel ih =>
    intro i s hik hf
    have hfl : flag i = false := hflag i
    rcases Nat.lt_or_ge i D with hik2 | hik2
    · obtain ⟨v, hv⟩ := hreads i hik2
      have hb : ¬(True ∧ (i : Int) ≥ secs) := by
        rintro ⟨-, hge⟩
        omega
      rw [normal_loop_step fsAt src unit flag true secs fuel i s v hfl (by simpa using hb) hv]
      exact ih (i + 1) (stats_update s v) (by omega) (by omega)
    · have hik3 : i = D := by omega
      subst hik3
      exact ⟨s, normal_loop_stop fsAt src unit flag true secs fuel i s hfl ⟨rfl, by omega⟩⟩

/-- Helper: when every read among the first n ticks succeeds, the
average-mode loop collects exactly n samples. -/
theorem avg_loop_all_success (fsAt : Nat → String → Option String) (src : String)
    (unit : temp_unit_t) :
    ∀ n, (∀ j, j < n → ∃ v, ccputemp_get_unit_temp_from_file (fsAt j) src unit = some v) →
      ∃ sum : ℚ, ccputemp_avg_loop fsAt src unit n = some (n, sum) := by
  intro n
  induction n with
  | zero => exact fun _ => ⟨0, rfl⟩
  | succ n ih =>
    intro h
    obtain ⟨sum, hs⟩ := ih (fun j hj => h j (by omega))
    obtain ⟨v, hv⟩ := h n (by omega)
    refine ⟨sum + v, ?_⟩
    show (match ccputemp_avg_loop fsAt src unit n with
      | none => none
      | some (c, s) =>
        match ccputemp_get_unit_temp_from_file (fsAt n) src unit with
        | none => none
        | some v => some (c + 1, s + v)) = some (n + 1, sum + v)
    rw [hs, hv]

/-- C1: a bounded normal-mode run of 1 second with the thermal file
holding "2000" (2 degrees) collects N = 1 sample with sum 2, but prints
Average = sum/(i+1) = 2/2 = 1, not sum/N = 2: the final average divides
by one more than the number of samples collected.  Average-only mode on
the same input correctly reports sum/N = 2. -/
theorem C1_final_average_off_by_one :
    ccputemp_do_normal (fun _ _ => some "2000") "/proc/acpi/thermal_zone/THM0/temperature"
        temp_unit_t.CELSIUS (fun _ => false) true 1 3 =
      some ⟨0, some (2, 2, 1), true⟩ ∧
    (1 : ℚ) ≠ 2 / 1 ∧
    ccputemp_do_avg (fun _ _ => some "2000") "/proc/acpi/thermal_zone/THM0/temperature"
        temp_unit_t.CELSIUS 1 = some 2 := by
  have hloop : ccputemp_normal_loop (fun _ _ => some "2000")
      "/proc/acpi/thermal_zone/THM0/temperature" temp_unit_t.CELSIUS
      (fun _ => false) true (clamp_normal_seconds true 1) 3 0 stats_init =
      LoopOutcome.finished 1 (stats_update stats_init ((2 : Int) : ℚ)) := rfl
  have havg : ccputemp_avg_loop (fun _ _ => some "2000")
      "/proc/acpi/thermal_zone/THM0/temperature" temp_unit_t.CELSIUS
      (clamp_avg_seconds 1).toNat = some (1, 0 + ((2 : Int) : ℚ)) := rfl
  refine ⟨?_, by norm_num, ?_⟩
  · unfold ccputemp_do_normal
    rw [hloop]
    norm_num [stats_update, stats_init, c_min, c_max, FLT_MAX, FLT_MIN]
  · unfold ccputemp_do_avg
    rw [havg]
    norm_num [clamp_avg_seconds, g_default_runtime_secs]

/-- C6: temp_min is initialized to FLT_MAX and temp_max to FLT_MIN — the
smallest POSITIVE normalized float, about 1.18e-38, not negative
infinity — so a run whose only sample is -5 degrees reports Highest =
FLT_MIN instead of the true maximum -5 (Lowest = -5 is right). -/
theorem C6_max_init_flt_min :
    stats_init.temp_min = FLT_MAX ∧
    stats_init.temp_max = FLT_MIN ∧
    (0 : ℚ) < FLT_MIN ∧
    ccputemp_do_normal (fun _ _ => some "-5000") "/proc/acpi/thermal_zone/THM0/temperature"
        temp_unit_t.CELSIUS (fun _ => false) true 1 3 =
      some ⟨0, some (FLT_MIN, -5, -5 / 2), true⟩ ∧
    FLT_MIN ≠ (-5 : ℚ) := by
  have hloop : ccputemp_normal_loop (fun _ _ => some "-5000")
      "/proc/acpi/thermal_zone/THM0/temperature" temp_unit_t.CELSIUS
      (fun _ => false) true (clamp_normal_seconds true 1) 3 0 stats_init =
      LoopOutcome.finished 1 (stats_update stats_init ((-5 : Int) : ℚ)) := rfl
  refine ⟨rfl, rfl, by norm_num [FLT_MIN], ?_, by norm_num [FLT_MIN]⟩
  unfold ccputemp_do_normal
  rw [hloop]
  norm_num [stats_update, stats_init, c_min, c_max, FLT_MAX, FLT_MIN]

/-- C7: if the sample read fails at tick k — after k successful ticks,
with the interruption flag clear and the bounded-mode break not yet
reached — the run returns -1 immediately: no final summary is printed,
the logger is never invoked, and the statistics accumulated so far
appear in no output. -/
theorem C7_read_failure_aborts_run (fsAt : Nat → String → Option String) (src : String)
    (unit : temp_unit_t) (flag : Nat → Bool) (os : Bool) (seconds : Int) (fuel k : Nat)
    (hfuel : k < fuel)
    (hflag : ∀ j, j ≤ k → flag j = false)
    (hbound : os = true → (k : Int) < clamp_normal_seconds os seconds)
    (hreads : ∀ j, j < k → ∃ v, ccputemp_get_unit_temp_from_file (fsAt j) src unit = some v)
    (hfail : ccputemp_get_unit_temp_from_file (fsAt k) src unit = none) :
    ccputemp_do_normal fsAt src unit flag os seconds fuel = some ⟨-1, none, false⟩ := by
  obtain ⟨st, hst⟩ := normal_loop_error_of_fail fsAt src unit flag os
    (clamp_normal_seconds os seconds) k hbound hflag hfail fuel 0 stats_init
    (Nat.zero_le k) (by omega) (fun j _ hj => hreads j hj)
  unfold ccputemp_do_normal
  rw [hst]

/-- C7 witness: a 5-second bounded run whose read succeeds at tick 0
(file "3000") and fails at tick 1 (fopen fails) returns -1 with no
summary and no log entry. -/
theorem C7_read_failure_aborts_run_witness :
    ccputemp_do_normal (fun j => if j = 0 then (fun _ => some "3000") else (fun _ => none))
      "/proc/acpi/thermal_zone/THM0/temperature" temp_unit_t.CELSIUS (fun _ => false) true 5 3 =
      some ⟨-1, none, false⟩ :=
  C7_read_failure_aborts_run _ _ _ _ _ _ 3 1 (by omega) (fun j hj => rfl)
    (fun _ => by decide)
    (fun j hj => ⟨((3 : Int) : ℚ), by
      obtain rfl : j = 0 := by omega
      rfl⟩)
    rfl

/-- C9: a bounded run of configured duration D ≥ 1 during which the
interruption flag never gets set and every read succeeds executes
exactly D ticks: the normal-mode loop exits at the bounded-mode break
with tick counter D, and the average-mode loop collects exactly D
samples. -/
theorem C9_bounded_run_exact_ticks (fsAt : Nat → String → Option String) (src : String)
    (unit : temp_unit_t) (D fuel : Nat)
    (hD : 1 ≤ D) (hfuel : D < fuel)
    (hreads : ∀ j, j < D → ∃ v, ccputemp_get_unit_temp_from_file (fsAt j) src unit = some v) :
    (∃ st : Stats, ccputemp_normal_loop fsAt src unit (fun _ => false) true
        (clamp_normal_seconds true (D : Int)) fuel 0 stats_init = LoopOutcome.finished D st) ∧
    (∃ sum : ℚ, ccputemp_avg_loop fsAt src unit (clamp_avg_seconds (D : Int)).toNat =
        some (D, sum)) := by
  have hcl : clamp_normal_seconds true (D : Int) = (D : Int) := by
    unfold clamp_normal_seconds
    rw [if_neg]
    rintro ⟨-, h⟩
    omega
  have hca : (clamp_avg_seconds (D : Int)).toNat = D := by
    unfold clamp_avg_seconds
    rw [if_neg (by omega)]
    omega
  constructor
  · exact normal_loop_finishes_at_bound fsAt src unit (fun _ => false)
      (clamp_normal_seconds true (D : Int)) D (fun _ => rfl) hcl hreads fuel 0 stats_init
      (Nat.zero_le D) (by omega)
  · rw [hca]
    exact avg_loop_all_success fsAt src unit D hreads

/-- C9 witness: with the thermal file constantly "2000", a configured
duration of 2 and no interruption, both loops run exactly 2 ticks. -/
theorem C9_bounded_run_exact_ticks_witness :
    (∃ st : Stats, ccputemp_normal_loop (fun _ _ => some "2000")
        "/proc/acpi/thermal_zone/THM0/temperature" temp_unit_t.CELSIUS (fun _ => false) true
        (clamp_normal_seconds true (2 : Int)) 3 0 stats_init = LoopOutcome.finished 2 st) ∧
    (∃ sum : ℚ, ccputemp_avg_loop (fun _ _ => some "2000")
        "/proc/acpi/thermal_zone/THM0/temperature" temp_unit_t.CELSIUS
        (clamp_avg_seconds (2 : Int)).toNat = some (2, sum)) :=
  C9_bounded_run_exact_ticks _ _ _ 2 3 (by omega) (by omega)
    (fun j hj => ⟨((2 : Int) : ℚ), rfl⟩)

end Ccputemp
